import Mathlib

/-!
# DS1307RTC driver: register-level embedding

A shallow embedding of `DS1307RTC.cpp` in the configuration the file compiles
(`USE_I2C_LIBRARY` is defined on line 26, so the `I2c` branches are the code).

* bytes (`uint8_t`) are natural numbers, reduced `% 256` where a value is
  converted to a byte;
* the two-wire bus and the chip are an explicit state (`World`): the chip's
  registers and register pointer, the receive buffer of the bus library, the
  replies the transport is going to give, and the log of the transactions issued;
* the static member `exists` is the field `exists_` of that state;
* an operation on a `tmElements_t &` returns the updated structure.
-/

namespace DS1307RTC

/-! ## Constants and the time structure -/

/-- Bus address of the chip, `DS1307_CTRL_ID` (line 40). -/
def DS1307_CTRL_ID : Nat := 0x68

/-- Modelled from the spec: `tmNbrFields` comes from the Time library header, which
is not part of the source; the register block is exactly 7 consecutive bytes. -/
def tmNbrFields : Nat := 7

/-- Modelled from the spec: `tmElements_t` comes from the Time library header, which
is not part of the source. It has the seven fields of the spec's TimeFields, each
one byte, in the order of the register block (`write` transmits the structure as a
block of bytes, `read` fills the fields in this order). `Year` is the byte the
library stores: the full year minus 1970 (see `tmYearToCalendar`). -/
structure tmElements_t where
  Second : Nat
  Minute : Nat
  Hour : Nat
  Wday : Nat
  Day : Nat
  Month : Nat
  Year : Nat
deriving DecidableEq, Repr

/-- Modelled from the spec: the macro `y2kYearToTm` comes from the Time library
header. The spec gives full year = 2000 + chip field; the `Year` byte counts from
1970, so the byte is the chip field plus 30. -/
def y2kYearToTm (y : Nat) : Nat := y + 30

/-- Modelled from the spec: the macro `tmYearToY2k` comes from the Time library
header; chip field = full year − 2000, that is the `Year` byte minus 30. -/
def tmYearToY2k (y : Nat) : Nat := y - 30

/-- Modelled from the spec: the full four-digit year of a `Year` byte (the Time
library macro `tmYearToCalendar`). -/
def tmYearToCalendar (y : Nat) : Nat := y + 1970

/-- Modelled from the spec: the `Year` byte of a full four-digit year (the Time
library macro `CalendarYrToTm`). -/
def CalendarYrToTm (y : Nat) : Nat := y - 1970

/-! ## Codec (lines 295–304) -/

/-- Source function `uint8_t DS1307RTC::dec2bcd(uint8_t num)`: `((num/10 * 16) + (num % 10))`,
argument and result converted to a byte. -/
def dec2bcd (num : Nat) : Nat :=
  (((num % 256) / 10 * 16) + ((num % 256) % 10)) % 256

/-- Source function `uint8_t DS1307RTC::bcd2dec(uint8_t num)`: `((num/16 * 10) + (num % 16))`,
argument and result converted to a byte. -/
def bcd2dec (num : Nat) : Nat :=
  (((num % 256) / 16 * 10) + ((num % 256) % 16)) % 256

/-! ## The bus and the chip -/

/-- What the transport does with one bus transaction: it goes through (`ok`), it
fails with a status code (`err`), or, for a read request, it goes through but
delivers only `n` of the bytes asked for (`short`; a write it simply lets through). -/
inductive Reply where
  | ok
  | err (code : Nat)
  | short (n : Nat)
deriving DecidableEq, Repr

/-- The status byte the bus library returns for a reply: 0 on success, a nonzero
code on failure. -/
def Reply.status : Reply → Nat
  | .err code => code % 255 + 1
  | _ => 0

/-- Whether the reply is a transport failure. -/
def Reply.failed : Reply → Bool
  | .err _ => true
  | _ => false

/-- One bus transaction as the driver issues it. -/
inductive Txn where
  | writePtr (address reg : Nat)
  | writeData (address reg data : Nat)
  | writeBlock (address reg : Nat) (data : List Nat)
  | readReq (address count : Nat)
deriving DecidableEq, Repr

/-- The chip: its registers (64 addresses, `0x00`–`0x3F`) and the register pointer. -/
structure Chip where
  regs : Nat → Nat
  ptr : Nat

/-- Point the chip at a register. -/
def Chip.seek (c : Chip) (reg : Nat) : Chip :=
  { c with ptr := reg % 64 }

/-- Store one byte at the pointer and advance it. -/
def Chip.put (c : Chip) (b : Nat) : Chip :=
  { regs := fun i => if i = c.ptr then b % 256 else c.regs i
    ptr := (c.ptr + 1) % 64 }

/-- Store a block of bytes from the pointer on. -/
def Chip.putAll (c : Chip) : List Nat → Chip
  | [] => c
  | b :: bs => (c.put b).putAll bs

/-- The `n` bytes from the pointer on. -/
def Chip.fetch (c : Chip) : Nat → List Nat
  | 0 => []
  | n + 1 => (c.regs c.ptr % 256) :: ({ c with ptr := (c.ptr + 1) % 64 } : Chip).fetch n

/-- The pointer after `n` bytes were read. -/
def Chip.skip (c : Chip) (n : Nat) : Chip :=
  { c with ptr := (c.ptr + n) % 64 }

/-- State of the driver and its surroundings. `exists_` is the static member
`DS1307RTC::exists` (line 306). -/
structure World where
  exists_ : Bool
  chip : Chip
  rx : List Nat
  script : List Reply
  log : List Txn

/-- Hand a transaction to the transport: it is logged and the next scripted reply
is consumed (a transport with no scripted reply left succeeds). -/
def I2c.issue (t : Txn) (w : World) : Reply × World :=
  match w.script with
  | [] => (Reply.ok, { w with log := w.log ++ [t] })
  | r :: rs => (r, { w with script := rs, log := w.log ++ [t] })

/-- Modelled from the spec: `I2c.write(address, registerAddress)` of the bus
library (not part of the source), the register-pointer write. Returns the status. -/
def I2c.write (address registerAddress : Nat) (w : World) : Nat × World :=
  let r := I2c.issue (Txn.writePtr address registerAddress) w
  if r.1.failed then (r.1.status, r.2)
  else (0, { r.2 with chip := r.2.chip.seek registerAddress })

/-- Modelled from the spec: `I2c.write(address, registerAddress, data)` of the bus
library, the write of one byte to a register. Returns the status. -/
def I2c.writeData (address registerAddress data : Nat) (w : World) : Nat × World :=
  let r := I2c.issue (Txn.writeData address registerAddress (data % 256)) w
  if r.1.failed then (r.1.status, r.2)
  else (0, { r.2 with chip := (r.2.chip.seek registerAddress).put data })

/-- Modelled from the spec: `I2c.write(address, registerAddress, data, numberOfBytes)`
of the bus library, the block write starting at a register. `data` holds the
`numberOfBytes` bytes found at the pointer passed. Returns the status. -/
def I2c.writeBlock (address registerAddress : Nat) (data : List Nat) (w : World) :
    Nat × World :=
  let r := I2c.issue (Txn.writeBlock address registerAddress (data.map (· % 256))) w
  if r.1.failed then (r.1.status, r.2)
  else (0, { r.2 with chip := (r.2.chip.seek registerAddress).putAll data })

/-- Modelled from the spec: `I2c.read(address, numberOfBytes)` of the bus library,
the read request from the register pointer on; the bytes go to the receive buffer.
Returns the status. -/
def I2c.read (address numberOfBytes : Nat) (w : World) : Nat × World :=
  let r := I2c.issue (Txn.readReq address numberOfBytes) w
  match r.1 with
  | Reply.err _ => (r.1.status, { r.2 with rx := [] })
  | Reply.ok =>
      (0, { r.2 with rx := r.2.chip.fetch numberOfBytes,
                     chip := r.2.chip.skip numberOfBytes })
  | Reply.short n =>
      (0, { r.2 with rx := r.2.chip.fetch (min n numberOfBytes),
                     chip := r.2.chip.skip (min n numberOfBytes) })

/-- Modelled from the spec: `I2c.available()`, the number of bytes in the receive
buffer. -/
def I2c.available (w : World) : Nat := w.rx.length

/-- Modelled from the spec: `I2c.receive()`, the next byte of the receive buffer
(0 when it is empty). -/
def I2c.receive (w : World) : Nat × World :=
  match w.rx with
  | [] => (0, w)
  | b :: bs => (b, { w with rx := bs })

/-! ## Driver operations -/

/-- Source function `bool DS1307RTC::read(tmElements_t &tm)` (lines 68–88, 125–126). Returns the
result, the caller's structure after the call, and the state. -/
def read (tm : tmElements_t) (w : World) : Bool × tmElements_t × World :=
  let p := I2c.write DS1307_CTRL_ID 0x00 w
  if p.1 ≠ 0 then (false, tm, { p.2 with exists_ := false })
  else
    let w1 : World := { p.2 with exists_ := true }
    let q := I2c.read DS1307_CTRL_ID tmNbrFields w1
    if q.1 ≠ 0 then (false, tm, q.2)
    else if I2c.available q.2 < tmNbrFields then (false, tm, q.2)
    else
      let r0 := I2c.receive q.2
      let sec := r0.1
      let r1 := I2c.receive r0.2
      let r2 := I2c.receive r1.2
      let r3 := I2c.receive r2.2
      let r4 := I2c.receive r3.2
      let r5 := I2c.receive r4.2
      let r6 := I2c.receive r5.2
      let tm1 : tmElements_t :=
        { tm with
          Second := bcd2dec (sec &&& 0x7f)
          Minute := bcd2dec r1.1
          Hour := bcd2dec (r2.1 &&& 0x3f)
          Wday := bcd2dec r3.1
          Day := bcd2dec r4.1
          Month := bcd2dec r5.1
          Year := y2kYearToTm (bcd2dec r6.1) % 256 }
      if sec &&& 0x80 ≠ 0 then (false, tm1, r6.2)
      else (true, tm1, r6.2)

/-- The bytes found at `(uint8_t*)&tm`: the seven members in the order of their
declaration. -/
def tmBytes (tm : tmElements_t) : List Nat :=
  [tm.Second, tm.Minute, tm.Hour, tm.Wday, tm.Day, tm.Month, tm.Year]

/-- Source function `bool DS1307RTC::write(tmElements_t &tm)` (lines 129–147, 192–193). The block
write is given the address of `tm` and a count of 8, one more than the seven bytes
of the structure: `pad` is the byte that follows `tm` in memory. Returns the
result, the caller's structure after the call, and the state. -/
def write (tm : tmElements_t) (pad : Nat) (w : World) : Bool × tmElements_t × World :=
  let tm1 : tmElements_t := { tm with Second := (tm.Second ||| 0x80) % 256 }
  let p := I2c.writeBlock DS1307_CTRL_ID 0x00 (tmBytes tm1 ++ [pad]) w
  if p.1 ≠ 0 then (false, tm1, { p.2 with exists_ := false })
  else
    let w1 : World := { p.2 with exists_ := true }
    -- `tm.Second &= ~0x80` on a byte: bit 7 is cleared
    let tm2 : tmElements_t := { tm1 with Second := tm1.Second &&& 0x7f }
    let q := I2c.writeData DS1307_CTRL_ID 0x00 tm2.Second w1
    if q.1 ≠ 0 then (false, tm2, { q.2 with exists_ := false })
    else (true, tm2, { q.2 with exists_ := true })

/-- Source function `unsigned char DS1307RTC::isRunning()` (lines 196–212). -/
def isRunning (w : World) : Nat × World :=
  let p := I2c.write DS1307_CTRL_ID 0x00 w
  if p.1 ≠ 0 then (2, { p.2 with exists_ := false })
  else
    let w1 : World := { p.2 with exists_ := true }
    let q := I2c.read DS1307_CTRL_ID 0x01 w1
    if q.1 ≠ 0 then (2, { q.2 with exists_ := false })
    else
      let w2 : World := { q.2 with exists_ := true }
      let r := I2c.receive w2
      (if r.1 &&& 0x80 ≠ 0 then 0 else 1, r.2)

/-- Source function `void DS1307RTC::setCalibration(char calValue)` (lines 232–241); `char` is
signed, `calValue` is an integer in −128..127. -/
def setCalibration (calValue : Int) (w : World) : World :=
  let calReg0 : Nat := (calValue.natAbs &&& 0x1f) % 256
  let calReg : Nat := if calValue ≥ 0 then calReg0 ||| 0x20 else calReg0
  let p := I2c.writeData DS1307_CTRL_ID 0x07 calReg w
  if p.1 ≠ 0 then { p.2 with exists_ := false }
  else { p.2 with exists_ := true }

/-- Source function `char DS1307RTC::getCalibration()` (lines 255–270, 287–290). -/
def getCalibration (w : World) : Int × World :=
  let p := I2c.write DS1307_CTRL_ID 0x07 w
  if p.1 ≠ 0 then (0x40, { p.2 with exists_ := false })
  else
    let w1 : World := { p.2 with exists_ := true }
    let q := I2c.read DS1307_CTRL_ID 0x01 w1
    if q.1 ≠ 0 then (0x40, { q.2 with exists_ := false })
    else
      let w2 : World := { q.2 with exists_ := true }
      let r := I2c.receive w2
      let calReg : Nat := r.1
      let out : Int := ((calReg &&& 0x1f : Nat) : Int)
      (if calReg &&& 0x20 = 0 then -out else out, r.2)

/-- Source function `time_t DS1307RTC::get()` (lines 53–58). `makeTime` is the Time library's
conversion (an external collaborator); `tm0` is the content of the uninitialised
local `tm`. -/
def get (makeTime : tmElements_t → Nat) (tm0 : tmElements_t) (w : World) : Nat × World :=
  let r := read tm0 w
  if r.1 = false then (0, r.2.2)
  else (makeTime r.2.1, r.2.2)

/-- Source function `bool DS1307RTC::set(time_t t)` (lines 60–65). `breakTime` is the Time
library's conversion (an external collaborator); `pad` as for `write`. -/
def set (breakTime : Nat → tmElements_t) (t : Nat) (pad : Nat) (w : World) : Bool × World :=
  let r := write (breakTime t) pad w
  (r.1, r.2.2)

/-! ## Worlds used in statements -/

/-- A chip whose registers hold the given bytes from address 0 on (0 elsewhere). -/
def Chip.ofBytes (bs : List Nat) : Chip :=
  { regs := fun i => bs.getD i 0, ptr := 0 }

/-- A state with the given flag, chip and scripted replies, nothing received and
nothing logged yet. -/
def World.start (e : Bool) (c : Chip) (script : List Reply) : World :=
  { exists_ := e, chip := c, rx := [], script := script, log := [] }

/-- The state `w` with the transport scripted to give the replies `rs` next. -/
def World.withScript (w : World) (rs : List Reply) : World :=
  { w with script := rs }

/-- The fields `read` decodes from the seven bytes at registers 0–6 (lines 81–88). -/
def decodeRegs (regs : Nat → Nat) : tmElements_t :=
  { Second := bcd2dec (regs 0 % 256 &&& 0x7f)
    Minute := bcd2dec (regs 1 % 256)
    Hour := bcd2dec (regs 2 % 256 &&& 0x3f)
    Wday := bcd2dec (regs 3 % 256)
    Day := bcd2dec (regs 4 % 256)
    Month := bcd2dec (regs 5 % 256)
    Year := bcd2dec (regs 6 % 256) + 30 }

/-- A time within the chip's ranges: 2000-01-01 (weekday 1) 00:16:00. -/
def tmSample : tmElements_t :=
  { Second := 0, Minute := 16, Hour := 0, Wday := 1, Day := 1, Month := 1,
    Year := CalendarYrToTm 2000 }

/-- A blank chip behind a transport that never fails. -/
def worldBlank : World := World.start false (Chip.ofBytes []) []

/-- Some content of the caller's structure before a call. -/
def tmPrior : tmElements_t :=
  { Second := 1, Minute := 2, Hour := 3, Wday := 4, Day := 5, Month := 6, Year := 7 }

/-- A chip whose clock is halted: the seconds byte `0xC5` has bit 7 set. -/
def worldHalted : World :=
  World.start false (Chip.ofBytes [0xC5, 0x59, 0x23, 0x07, 0x31, 0x12, 0x99]) []

/-- A running chip whose hours byte `0x92` has bit 7 set. -/
def worldHourBit7 : World :=
  World.start false (Chip.ofBytes [0x45, 0x59, 0x92, 0x07, 0x31, 0x12, 0x99]) []

/-! ## Codec properties -/

/-- C1: for every decimal n with 0 ≤ n ≤ 99, decoding the BCD encoding of n gives n
back (8-bit unsigned arithmetic). -/
theorem bcd2dec_dec2bcd (n : Nat) (h : n ≤ 99) : bcd2dec (dec2bcd n) = n := by
  interval_cases n <;> rfl

/-- Witness of C1 at n = 59. -/
theorem bcd2dec_dec2bcd_witness : 59 ≤ 99 ∧ bcd2dec (dec2bcd 59) = 59 :=
  ⟨by decide, bcd2dec_dec2bcd 59 (by decide)⟩

/-! ## Bytes and bits -/

theorem and_0x80_ne_zero (n : Nat) : n &&& 0x80 ≠ 0 ↔ n.testBit 7 = true := by
  have h := Nat.two_pow_and n 7
  rw [Nat.and_comm] at h
  norm_num at h
  rw [h]
  cases n.testBit 7 <;> simp

theorem and_0x80_eq_zero (n : Nat) : n &&& 0x80 = 0 ↔ n.testBit 7 = false := by
  rw [← Bool.not_eq_true, ← and_0x80_ne_zero]
  exact not_not.symm

theorem and_0x20_eq_zero (n : Nat) : n &&& 0x20 = 0 ↔ n.testBit 5 = false := by
  have h := Nat.two_pow_and n 5
  rw [Nat.and_comm] at h
  norm_num at h
  rw [h]
  cases n.testBit 5 <;> simp

theorem bcd2dec_le (n : Nat) : bcd2dec n ≤ 165 := by
  unfold bcd2dec
  have h1 : n % 256 / 16 ≤ 15 := by omega
  have h2 : n % 256 % 16 ≤ 15 := by omega
  have h3 : n % 256 / 16 * 10 + n % 256 % 16 ≤ 165 := by omega
  exact le_trans (Nat.mod_le _ _) h3

/-! ## What `read` does when both transactions go through -/

theorem read_ok_ok (tm : tmElements_t) (w : World) (rest : List Reply) :
    read tm (w.withScript (Reply.ok :: Reply.ok :: rest)) =
      (!(w.chip.regs 0 % 256).testBit 7, decodeRegs w.chip.regs,
        { exists_ := true, chip := { regs := w.chip.regs, ptr := 7 }, rx := [],
          script := rest,
          log := w.log ++ [Txn.writePtr 0x68 0] ++ [Txn.readReq 0x68 7] }) := by
  have hy : (bcd2dec (w.chip.regs 6 % 256) + 30) % 256
      = bcd2dec (w.chip.regs 6 % 256) + 30 := by
    have := bcd2dec_le (w.chip.regs 6 % 256)
    omega
  by_cases hb : (w.chip.regs 0 % 256).testBit 7 = true
  · have h1 := (and_0x80_ne_zero (w.chip.regs 0 % 256)).mpr hb
    simp [read, World.withScript, I2c.write, I2c.issue, Reply.failed, I2c.read, I2c.available,
      I2c.receive, Chip.fetch, Chip.seek, Chip.skip, tmNbrFields, DS1307_CTRL_ID, decodeRegs,
      y2kYearToTm, hy, hb, h1]
  · have h1 : ¬ (w.chip.regs 0 % 256 &&& 0x80 ≠ 0) := fun h =>
      hb ((and_0x80_ne_zero (w.chip.regs 0 % 256)).mp h)
    simp [read, World.withScript, I2c.write, I2c.issue, Reply.failed, I2c.read, I2c.available,
      I2c.receive, Chip.fetch, Chip.seek, Chip.skip, tmNbrFields, DS1307_CTRL_ID, decodeRegs,
      y2kYearToTm, hy, hb, h1]

/-! ## Write followed by read -/

/-- C2: evaluation at 2000-01-01 00:16:00 over a byte-storing chip with every bus
transaction succeeding: `write` returns true and the `read` that follows returns
true, but the minute read back is 10 and the year byte read back is 54 (2024), not
the 16 and 30 (2000) written: `write` transmits the fields as raw binary bytes and
`read` decodes them as BCD. -/
theorem write_read_sample_differs :
    (write tmSample 0 worldBlank).1 = true ∧
    (read tmPrior (write tmSample 0 worldBlank).2.2).1 = true ∧
    (read tmPrior (write tmSample 0 worldBlank).2.2).2.1.Minute = 10 ∧
    tmYearToCalendar (read tmPrior (write tmSample 0 worldBlank).2.2).2.1.Year = 2024 ∧
    (read tmPrior (write tmSample 0 worldBlank).2.2).2.1 ≠ tmSample := by
  decide

/-! ## A halted clock -/

/-- C3, as stated, fails: the block `C5 59 23 07 31 12 99` has bit 7 of the seconds
byte set; `read` returns false, yet the caller's structure no longer holds what it
held before the call: it holds the decoded fields. -/
theorem read_halted_overwrites :
    (worldHalted.chip.regs 0).testBit 7 = true ∧
    (read tmPrior worldHalted).1 = false ∧
    (read tmPrior worldHalted).2.1 ≠ tmPrior ∧
    (read tmPrior worldHalted).2.1 =
      { Second := 45, Minute := 59, Hour := 23, Wday := 7, Day := 31, Month := 12,
        Year := 129 } := by
  decide

/-- C3, amended: for every 7-byte block returned by the transport (the registers
0–6 of the chip, pointer write and read request both succeeding) whose seconds byte
has bit 7 set, and every initial content of the caller's structure, `read` returns
false and the caller's structure holds the seven fields decoded from the block,
whatever it held before. -/
theorem read_halted_decodes (tm : tmElements_t) (w : World) (rest : List Reply)
    (h : (w.chip.regs 0 % 256).testBit 7 = true) :
    (read tm (w.withScript (Reply.ok :: Reply.ok :: rest))).1 = false ∧
    (read tm (w.withScript (Reply.ok :: Reply.ok :: rest))).2.1 =
      { Second := bcd2dec (w.chip.regs 0 % 256 &&& 0x7f)
        Minute := bcd2dec (w.chip.regs 1 % 256)
        Hour := bcd2dec (w.chip.regs 2 % 256 &&& 0x3f)
        Wday := bcd2dec (w.chip.regs 3 % 256)
        Day := bcd2dec (w.chip.regs 4 % 256)
        Month := bcd2dec (w.chip.regs 5 % 256)
        Year := bcd2dec (w.chip.regs 6 % 256) + 30 } := by
  rw [read_ok_ok]
  simp [h, decodeRegs]

/-- Witness of C3 amended, at the halted chip `worldHalted`. -/
theorem read_halted_decodes_witness :
    (read tmPrior (worldHalted.withScript [Reply.ok, Reply.ok])).1 = false ∧
    (read tmPrior (worldHalted.withScript [Reply.ok, Reply.ok])).2.1 =
      { Second := bcd2dec (worldHalted.chip.regs 0 % 256 &&& 0x7f)
        Minute := bcd2dec (worldHalted.chip.regs 1 % 256)
        Hour := bcd2dec (worldHalted.chip.regs 2 % 256 &&& 0x3f)
        Wday := bcd2dec (worldHalted.chip.regs 3 % 256)
        Day := bcd2dec (worldHalted.chip.regs 4 % 256)
        Month := bcd2dec (worldHalted.chip.regs 5 % 256)
        Year := bcd2dec (worldHalted.chip.regs 6 % 256) + 30 } :=
  read_halted_decodes tmPrior worldHalted [] (by decide)

/-! ## Calibration round trip -/

/-- C4: for every signed value v with −31 ≤ v ≤ 31, when the three bus transactions
succeed over a chip that returns the byte last written to register 0x07,
`setCalibration v` followed by `getCalibration` returns v. -/
theorem setCalibration_getCalibration (v : Int) (w : World) (rest : List Reply)
    (hlo : -31 ≤ v) (hhi : v ≤ 31) :
    (getCalibration (setCalibration v
      (w.withScript (Reply.ok :: Reply.ok :: Reply.ok :: rest)))).1 = v := by
  simp only [getCalibration, setCalibration, World.withScript, I2c.write, I2c.writeData,
    I2c.issue, Reply.failed, I2c.read, I2c.receive, Chip.fetch, Chip.seek, Chip.skip, Chip.put,
    DS1307_CTRL_ID]
  simp
  interval_cases v <;> decide

/-- Witness of C4 at v = −17. -/
theorem setCalibration_getCalibration_witness :
    (getCalibration (setCalibration (-17)
      (worldBlank.withScript [Reply.ok, Reply.ok, Reply.ok]))).1 = -17 :=
  setCalibration_getCalibration (-17) worldBlank [] (by decide) (by decide)

/-! ## The block `write` transmits -/

/-- C5: evaluation at 2000-01-01 00:16:00: the first bus transaction `write` issues
is a block write to device 0x68 at register 0x00 of 8 bytes, the seven members of
the structure as raw binary (minute 16 is `0x10`, the year byte 30 counts from
1970) followed by the byte after the structure; it is not the 7-byte BCD block. -/
theorem write_first_block_sample :
    (write tmSample 0 worldBlank).2.2.log.head? =
      some (Txn.writeBlock 0x68 0x00 [0x80, 0x10, 0, 1, 1, 1, 30, 0]) ∧
    (write tmSample 0 worldBlank).2.2.log.head? ≠
      some (Txn.writeBlock 0x68 0x00
        [dec2bcd tmSample.Second ||| 0x80, dec2bcd tmSample.Minute, dec2bcd tmSample.Hour,
          dec2bcd tmSample.Wday, dec2bcd tmSample.Day, dec2bcd tmSample.Month,
          dec2bcd (tmYearToCalendar tmSample.Year - 2000)]) := by
  decide

/-! ## Decoding a block -/

/-- C6, as stated, fails: in the block `45 59 92 07 31 12 99` bit 7 of the seconds
byte is clear and `read` returns true, but the hours byte `0x92` decodes to 12:
bit 7 is masked off along with bit 6, whereas clearing bit 6 alone gives 92. -/
theorem read_hour_masks_bit7 :
    (worldHourBit7.chip.regs 0).testBit 7 = false ∧
    (read tmPrior worldHourBit7).1 = true ∧
    (read tmPrior worldHourBit7).2.1.Hour = 12 ∧
    bcd2dec (worldHourBit7.chip.regs 2 &&& 0xBF) = 92 := by
  decide

/-- C6, amended: for every 7-byte block b0..b6 returned by the transport (the
registers 0–6, pointer write and read both succeeding) with bit 7 of b0 clear,
`read` returns true with Second = bcd2dec(b0 & 0x7f), Minute = bcd2dec(b1),
Hour = bcd2dec(b2 & 0x3f) (bits 6 and 7 cleared), Wday = bcd2dec(b3),
Day = bcd2dec(b4), Month = bcd2dec(b5) and year = 2000 + bcd2dec(b6). -/
theorem read_running_decodes (tm : tmElements_t) (w : World) (rest : List Reply)
    (h : (w.chip.regs 0 % 256).testBit 7 = false) :
    (read tm (w.withScript (Reply.ok :: Reply.ok :: rest))).1 = true ∧
    (read tm (w.withScript (Reply.ok :: Reply.ok :: rest))).2.1.Second
      = bcd2dec (w.chip.regs 0 % 256 &&& 0x7f) ∧
    (read tm (w.withScript (Reply.ok :: Reply.ok :: rest))).2.1.Minute
      = bcd2dec (w.chip.regs 1 % 256) ∧
    (read tm (w.withScript (Reply.ok :: Reply.ok :: rest))).2.1.Hour
      = bcd2dec (w.chip.regs 2 % 256 &&& 0x3f) ∧
    (read tm (w.withScript (Reply.ok :: Reply.ok :: rest))).2.1.Wday
      = bcd2dec (w.chip.regs 3 % 256) ∧
    (read tm (w.withScript (Reply.ok :: Reply.ok :: rest))).2.1.Day
      = bcd2dec (w.chip.regs 4 % 256) ∧
    (read tm (w.withScript (Reply.ok :: Reply.ok :: rest))).2.1.Month
      = bcd2dec (w.chip.regs 5 % 256) ∧
    tmYearToCalendar (read tm (w.withScript (Reply.ok :: Reply.ok :: rest))).2.1.Year
      = 2000 + bcd2dec (w.chip.regs 6 % 256) := by
  rw [read_ok_ok]
  simp [h, decodeRegs, tmYearToCalendar]
  omega

/-- Witness of C6 amended, at the chip `worldHourBit7`. -/
theorem read_running_decodes_witness :
    (read tmPrior (worldHourBit7.withScript [Reply.ok, Reply.ok])).1 = true ∧
    (read tmPrior (worldHourBit7.withScript [Reply.ok, Reply.ok])).2.1.Hour
      = bcd2dec (0x92 &&& 0x3f) :=
  let h := read_running_decodes tmPrior worldHourBit7 [] (by decide)
  ⟨h.1, h.2.2.2.1⟩

/-! ## The three-valued run state -/

/-- C7: `isRunning` returns one of 0, 1, 2; it returns 2 exactly when the
register-pointer write or the 1-byte read fails, and `exists` is then false;
otherwise `exists` is true and, a byte having been received, the result is 0 when
bit 7 of that byte (register 0) is set and 1 when it is clear. Here r1 and r2 are
the transport's replies to the two transactions. -/
theorem isRunning_three_valued (w : World) (r1 r2 : Reply) (rest : List Reply) :
    ((isRunning (w.withScript (r1 :: r2 :: rest))).1 = 0 ∨
      (isRunning (w.withScript (r1 :: r2 :: rest))).1 = 1 ∨
      (isRunning (w.withScript (r1 :: r2 :: rest))).1 = 2) ∧
    ((isRunning (w.withScript (r1 :: r2 :: rest))).1 = 2 ↔
      (r1.failed = true ∨ r2.failed = true)) ∧
    ((r1.failed = true ∨ r2.failed = true) →
      (isRunning (w.withScript (r1 :: r2 :: rest))).2.exists_ = false) ∧
    (¬ (r1.failed = true ∨ r2.failed = true) →
      (isRunning (w.withScript (r1 :: r2 :: rest))).2.exists_ = true) ∧
    (r1.failed = false → r2.failed = false → r2 ≠ Reply.short 0 →
      (isRunning (w.withScript (r1 :: r2 :: rest))).1 =
        if (w.chip.regs 0 % 256).testBit 7 then 0 else 1) := by
  simp only [isRunning, World.withScript, I2c.write, I2c.issue, I2c.read, I2c.receive,
    Chip.fetch, Chip.seek, Chip.skip, DS1307_CTRL_ID]
  cases hb : (w.chip.regs 0 % 256).testBit 7
  · have h0 := (and_0x80_eq_zero (w.chip.regs 0 % 256)).mpr hb
    norm_num at h0
    cases r1 <;> cases r2 <;> simp [Reply.failed, Reply.status, h0]
    all_goals (rename_i n; cases n <;> simp [Chip.fetch, h0])
  · have h0 := (and_0x80_ne_zero (w.chip.regs 0 % 256)).mpr hb
    norm_num at h0
    cases r1 <;> cases r2 <;> simp [Reply.failed, Reply.status, h0]
    all_goals (rename_i n; cases n <;> simp [Chip.fetch, h0])

/-- Witness of C7: a halted chip reports 0 (stopped), a failing pointer write 2. -/
theorem isRunning_three_valued_witness :
    (isRunning (worldHalted.withScript [Reply.ok, Reply.ok])).1 = 0 ∧
    (isRunning (worldHalted.withScript [Reply.err 3, Reply.ok])).1 = 2 :=
  ⟨((isRunning_three_valued worldHalted Reply.ok Reply.ok []).2.2.2.2 rfl rfl
      (by decide)).trans (by decide),
    (isRunning_three_valued worldHalted (Reply.err 3) Reply.ok []).2.1.mpr (Or.inl rfl)⟩

/-! ## Calibration read -/

/-- C8: if the transport fails on the register-pointer write to 0x07 or on the
1-byte read that follows, `getCalibration` returns 64 (0x40) and `exists` is false
afterwards, for every prior state. -/
theorem getCalibration_failure (w : World) (r1 r2 : Reply) (rest : List Reply)
    (h : r1.failed = true ∨ (r1.failed = false ∧ r2.failed = true)) :
    (getCalibration (w.withScript (r1 :: r2 :: rest))).1 = 64 ∧
    (getCalibration (w.withScript (r1 :: r2 :: rest))).2.exists_ = false := by
  simp only [getCalibration, World.withScript, I2c.write, I2c.issue, I2c.read, I2c.receive,
    Chip.fetch, Chip.seek, Chip.skip, DS1307_CTRL_ID]
  cases r1 <;> cases r2 <;> simp [Reply.failed, Reply.status] at h ⊢

/-- Witness of C8: the pointer write succeeds and the read fails, from a state where
`exists` was true. -/
theorem getCalibration_failure_witness :
    (getCalibration ((World.start true (Chip.ofBytes []) []).withScript
      [Reply.ok, Reply.err 0])).1 = 64 ∧
    (getCalibration ((World.start true (Chip.ofBytes []) []).withScript
      [Reply.ok, Reply.err 0])).2.exists_ = false :=
  getCalibration_failure (World.start true (Chip.ofBytes []) []) Reply.ok (Reply.err 0) []
    (Or.inr ⟨rfl, rfl⟩)

theorem and_0x1f_le (n : Nat) : n &&& 0x1f ≤ 31 := by
  have h := Nat.and_pow_two_sub_one_eq_mod n 5
  norm_num at h
  rw [h]
  omega

/-- C9: for every successful `getCalibration` (neither bus step fails) the result
lies in −31..31, so it is never the failure value 64; and for every register byte r
received (register 0x07) it equals r & 0x1F when bit 5 of r is set and −(r & 0x1F)
when it is clear. -/
theorem getCalibration_success (w : World) (r1 r2 : Reply) (rest : List Reply)
    (h1 : r1.failed = false) (h2 : r2.failed = false) :
    -31 ≤ (getCalibration (w.withScript (r1 :: r2 :: rest))).1 ∧
    (getCalibration (w.withScript (r1 :: r2 :: rest))).1 ≤ 31 ∧
    (getCalibration (w.withScript (r1 :: r2 :: rest))).1 ≠ 64 ∧
    (r2 ≠ Reply.short 0 →
      (getCalibration (w.withScript (r1 :: r2 :: rest))).1 =
        if (w.chip.regs 7 % 256).testBit 5
        then ((w.chip.regs 7 % 256 &&& 0x1f : Nat) : Int)
        else -((w.chip.regs 7 % 256 &&& 0x1f : Nat) : Int)) := by
  have hm := and_0x1f_le (w.chip.regs 7 % 256)
  simp only [getCalibration, World.withScript, I2c.write, I2c.issue, I2c.read, I2c.receive,
    Chip.fetch, Chip.seek, Chip.skip, DS1307_CTRL_ID]
  cases hb : (w.chip.regs 7 % 256).testBit 5
  · have h0 := (and_0x20_eq_zero (w.chip.regs 7 % 256)).mpr hb
    norm_num at h0 hm
    cases r1 <;> cases r2 <;> simp [Reply.failed, Reply.status, h0] at h1 h2 ⊢
    all_goals first
      | omega
      | (rename_i n; cases n <;> simp [Chip.fetch, h0]; omega)
  · have h0 : ¬ (w.chip.regs 7 % 256 &&& 0x20 = 0) := fun h =>
      absurd ((and_0x20_eq_zero (w.chip.regs 7 % 256)).mp h) (by simp [hb])
    norm_num at h0 hm
    cases r1 <;> cases r2 <;> simp [Reply.failed, Reply.status, h0] at h1 h2 ⊢
    all_goals first
      | omega
      | (rename_i n; cases n <;> simp [Chip.fetch, h0]; omega)

/-- Witness of C9: register 0x07 holds `0x31` (bit 5 set, magnitude 17). -/
theorem getCalibration_success_witness :
    (getCalibration ((World.start false
      (Chip.ofBytes [0, 0, 0, 0, 0, 0, 0, 0x31]) []).withScript [Reply.ok, Reply.ok])).1 = 17 :=
  ((getCalibration_success (World.start false (Chip.ofBytes [0, 0, 0, 0, 0, 0, 0, 0x31]) [])
    Reply.ok Reply.ok [] rfl rfl).2.2.2 (by decide)).trans (by decide)

/-! ## A failing first transaction -/

/-- C10: for each of `read`, `write`, `isRunning`, `getCalibration` and
`setCalibration`, and for every prior state (so every prior value of `exists`): if
the operation's first bus transaction fails, `exists` is false when the operation
returns. -/
theorem first_transaction_failure (tm : tmElements_t) (pad : Nat) (v : Int) (w : World)
    (r1 : Reply) (rest : List Reply) (h : r1.failed = true) :
    (read tm (w.withScript (r1 :: rest))).2.2.exists_ = false ∧
    (write tm pad (w.withScript (r1 :: rest))).2.2.exists_ = false ∧
    (isRunning (w.withScript (r1 :: rest))).2.exists_ = false ∧
    (getCalibration (w.withScript (r1 :: rest))).2.exists_ = false ∧
    (setCalibration v (w.withScript (r1 :: rest))).exists_ = false := by
  cases r1 <;> simp [Reply.failed] at h
  simp [read, write, isRunning, getCalibration, setCalibration, World.withScript, I2c.write,
    I2c.writeData, I2c.writeBlock, I2c.issue, Reply.failed, Reply.status]

/-- Witness of C10, from a state where `exists` was true. -/
theorem first_transaction_failure_witness :
    (read tmPrior ((World.start true (Chip.ofBytes []) []).withScript
      [Reply.err 0])).2.2.exists_ = false ∧
    (write tmSample 0 ((World.start true (Chip.ofBytes []) []).withScript
      [Reply.err 0])).2.2.exists_ = false ∧
    (isRunning ((World.start true (Chip.ofBytes []) []).withScript
      [Reply.err 0])).2.exists_ = false ∧
    (getCalibration ((World.start true (Chip.ofBytes []) []).withScript
      [Reply.err 0])).2.exists_ = false ∧
    (setCalibration 5 ((World.start true (Chip.ofBytes []) []).withScript
      [Reply.err 0])).exists_ = false :=
  first_transaction_failure tmPrior 0 5 (World.start true (Chip.ofBytes []) []) (Reply.err 0) []
    rfl

/-! ## Present flag and the read request -/

/-- C11: evaluation when the register-pointer write of `read` succeeds and the
7-byte read request fails: `read` returns false and `exists` is true afterwards,
whatever it was before; the last bus transaction attempted failed and the flag was
not cleared. -/
theorem read_request_failure_keeps_exists (tm : tmElements_t) (w : World) (r1 : Reply)
    (code : Nat) (rest : List Reply) :
    r1.failed = false →
    (read tm (w.withScript (r1 :: Reply.err code :: rest))).1 = false ∧
    (read tm (w.withScript (r1 :: Reply.err code :: rest))).2.2.exists_ = true ∧
    (read tm (w.withScript (r1 :: Reply.err code :: rest))).2.2.log.getLast?
      = some (Txn.readReq 0x68 7) := by
  intro h
  cases r1 <;> simp [Reply.failed] at h <;>
    simp [read, World.withScript, I2c.write, I2c.issue, I2c.read, Reply.failed, Reply.status,
      DS1307_CTRL_ID, tmNbrFields]

/-- Witness of the evaluation for C11, from a state where `exists` was false. -/
theorem read_request_failure_keeps_exists_witness :
    (read tmPrior (worldBlank.withScript [Reply.ok, Reply.err 0])).1 = false ∧
    (read tmPrior (worldBlank.withScript [Reply.ok, Reply.err 0])).2.2.exists_ = true ∧
    (read tmPrior (worldBlank.withScript [Reply.ok, Reply.err 0])).2.2.log.getLast?
      = some (Txn.readReq 0x68 7) :=
  read_request_failure_keeps_exists tmPrior worldBlank Reply.ok 0 [] rfl

/-! ## A write that fails in its second phase -/

/-- C12: evaluation at 2000-01-01 00:16:00 with phase 1 succeeding and phase 2
failing over a byte-storing chip: `write` returns false and the `isRunning` that
follows returns 0, but the minute a following `read` decodes is 10 and the year
2024, not the 16 and 2000 of the attempted write. -/
theorem write_phase2_failure_sample :
    (write tmSample 0 (worldBlank.withScript [Reply.ok, Reply.err 0])).1 = false ∧
    (isRunning (write tmSample 0 (worldBlank.withScript [Reply.ok, Reply.err 0])).2.2).1 = 0 ∧
    (read tmPrior (write tmSample 0
      (worldBlank.withScript [Reply.ok, Reply.err 0])).2.2).2.1.Minute = 10 ∧
    tmYearToCalendar (read tmPrior (write tmSample 0
      (worldBlank.withScript [Reply.ok, Reply.err 0])).2.2).2.1.Year = 2024 ∧
    tmSample.Minute = 16 ∧ tmYearToCalendar tmSample.Year = 2000 := by
  decide

/-! ## The calibration byte -/

theorem cal_byte_bits (m : Nat) (h : m < 32) :
    (m % 256 ||| 0x20) = m + 32 ∧ (m + 32) % 256 = m + 32 ∧ (m + 32) &&& 0x1f = m ∧
    (m + 32).testBit 5 = true ∧ (m + 32).testBit 6 = false ∧ (m + 32).testBit 7 = false ∧
    m % 256 = m ∧ m &&& 0x1f = m ∧ m.testBit 5 = false ∧ m.testBit 6 = false ∧
    m.testBit 7 = false := by
  interval_cases m <;> decide

/-- C13: for every calValue (so for every signed 8-bit one), the one transaction `setCalibration`
issues is the write of a single byte b to register 0x07 of device 0x68, where b is
|calValue| & 0x1F with bit 5 set exactly when calValue ≥ 0 and bits 6 and 7 clear
(a magnitude above 31 is cut to its low 5 bits); when the transport lets the write
through, register 0x07 of the chip holds b. -/
theorem setCalibration_byte (v : Int) (w : World) (r1 : Reply) (rest : List Reply) :
    ∃ b : Nat,
      (setCalibration v (w.withScript (r1 :: rest))).log
        = w.log ++ [Txn.writeData 0x68 0x07 b] ∧
      b &&& 0x1f = v.natAbs &&& 0x1f ∧
      (b.testBit 5 = true ↔ 0 ≤ v) ∧
      b.testBit 6 = false ∧ b.testBit 7 = false ∧
      b = v.natAbs % 32 + (if 0 ≤ v then 32 else 0) ∧
      (r1.failed = false →
        (setCalibration v (w.withScript (r1 :: rest))).chip.regs 7 = b) := by
  have hm : v.natAbs &&& 0x1f = v.natAbs % 32 := Nat.and_pow_two_sub_one_eq_mod v.natAbs 5
  have hlt : v.natAbs % 32 < 32 := Nat.mod_lt _ (by decide)
  obtain ⟨c0, c1, c2, c3, c4, c5, c6, c7, c8, c9, c10⟩ := cal_byte_bits (v.natAbs % 32) hlt
  norm_num at c0 c1 c2 c3 c4 c5 c6 c7 c8 c9 c10 hm
  refine ⟨v.natAbs % 32 + (if 0 ≤ v then 32 else 0), ?_⟩
  by_cases hv : 0 ≤ v
  · cases r1 <;>
      simp [setCalibration, World.withScript, I2c.writeData, I2c.issue, Reply.failed,
        Reply.status, Chip.seek, Chip.put, DS1307_CTRL_ID, hm, hv, c0, c1, c2, c3, c4, c5, c6]
  · cases r1 <;>
      simp [setCalibration, World.withScript, I2c.writeData, I2c.issue, Reply.failed,
        Reply.status, Chip.seek, Chip.put, DS1307_CTRL_ID, hm, hv, c6, c7, c8, c9, c10]

/-- Witness of C13 at calValue = −100: the magnitude 100 is cut to 4 and bit 5 is
clear, the byte written is 4. -/
theorem setCalibration_byte_witness :
    ∃ b : Nat,
      (setCalibration (-100) (worldBlank.withScript [Reply.ok])).log
        = worldBlank.log ++ [Txn.writeData 0x68 0x07 b] ∧ b = 4 :=
  match setCalibration_byte (-100) worldBlank Reply.ok [] with
  | ⟨b, h1, _, _, _, _, h6, _⟩ => ⟨b, h1, h6.trans (by decide)⟩

/-! ## Year field -/

/-- C14: for every full year y with 2000 ≤ y ≤ 2099, the chip's two-digit field
y − 2000 encoded with `dec2bcd`, decoded with `bcd2dec` and added to 2000 gives y
back; the same through the `Year` byte of the time structure (`tmYearToY2k` on the
way to the chip, `y2kYearToTm` on the way back). -/
theorem year_roundtrip (y : Nat) (hlo : 2000 ≤ y) (hhi : y ≤ 2099) :
    2000 + bcd2dec (dec2bcd (y - 2000)) = y ∧
    tmYearToCalendar
      (y2kYearToTm (bcd2dec (dec2bcd (tmYearToY2k (CalendarYrToTm y)))) % 256) = y := by
  unfold tmYearToCalendar y2kYearToTm tmYearToY2k CalendarYrToTm
  interval_cases y <;> decide

/-- Witness of C14 at y = 2099. -/
theorem year_roundtrip_witness :
    2000 + bcd2dec (dec2bcd (2099 - 2000)) = 2099 ∧
    tmYearToCalendar
      (y2kYearToTm (bcd2dec (dec2bcd (tmYearToY2k (CalendarYrToTm 2099)))) % 256) = 2099 :=
  year_roundtrip 2099 (by decide) (by decide)

/-! ## Decoding any byte -/

/-- C19: for every byte b in 0..255, valid BCD or not, `bcd2dec b` is the high
nibble times 10 plus the low nibble exactly, at most 165, with no 8-bit wraparound;
and `bcd2dec (b & 0x7F)` ≤ 85, `bcd2dec (b & 0x3F)` ≤ 45. -/
theorem bcd2dec_any_byte (b : Nat) (h : b ≤ 255) :
    bcd2dec b = (b / 16) * 10 + b % 16 ∧ bcd2dec b ≤ 165 ∧
    bcd2dec (b &&& 0x7f) ≤ 85 ∧ bcd2dec (b &&& 0x3f) ≤ 45 := by
  interval_cases b <;> decide

/-- Witness of C19 at the malformed byte `0x1A`, which decodes to 20. -/
theorem bcd2dec_any_byte_witness :
    bcd2dec 0x1A = (0x1A / 16) * 10 + 0x1A % 16 ∧ bcd2dec 0x1A ≤ 165 ∧
    bcd2dec (0x1A &&& 0x7f) ≤ 85 ∧ bcd2dec (0x1A &&& 0x3f) ≤ 45 :=
  bcd2dec_any_byte 0x1A (by decide)

/-! ## The caller's structure after `write` -/

theorem second_halt_bit (s : Nat) (h : s ≤ 127) :
    (s ||| 0x80) % 256 = s ||| 0x80 ∧ (s ||| 0x80) &&& 0x7f = s ∧ s % 256 = s ∧
    (s ||| 0x80).testBit 7 = true := by
  interval_cases s <;> decide

/-- C20: for every tm with Second ≤ 127: when phase 1 of `write` fails, the caller's
structure comes back with Second equal to the input Second with bit 7 set and the
other fields unchanged; when phase 1 succeeds, whether phase 2 succeeds or fails,
the caller's structure equals its input in all fields. -/
theorem write_caller_fields (tm : tmElements_t) (pad : Nat) (w : World) (r1 r2 : Reply)
    (rest : List Reply) (h : tm.Second ≤ 127) :
    (r1.failed = true →
      (write tm pad (w.withScript (r1 :: r2 :: rest))).2.1
        = { tm with Second := tm.Second ||| 0x80 }) ∧
    (r1.failed = false →
      (write tm pad (w.withScript (r1 :: r2 :: rest))).2.1 = tm) := by
  obtain ⟨b1, b2, _, _⟩ := second_halt_bit tm.Second h
  cases r1 <;> cases r2 <;>
    simp [write, World.withScript, I2c.writeBlock, I2c.writeData, I2c.issue, Reply.failed,
      Reply.status, b1, b2]

/-- Witness of C20 at 2000-01-01 00:16:00 with phase 1 failing: Second comes back
as `0x80`. -/
theorem write_caller_fields_witness :
    (write tmSample 0 (worldBlank.withScript [Reply.err 0, Reply.ok])).2.1
      = { tmSample with Second := tmSample.Second ||| 0x80 } :=
  (write_caller_fields tmSample 0 worldBlank (Reply.err 0) Reply.ok [] (by decide)).1 rfl

/-! ## A completed write restarts the clock -/

theorem second_run_bit (s : Nat) (h : s ≤ 59) :
    (s ||| 0x80) % 256 = s ||| 0x80 ∧ (s ||| 0x80) &&& 0x7f = s ∧ s % 256 = s ∧
    s.testBit 7 = false ∧ s &&& 0x80 = 0 := by
  interval_cases s <;> decide

/-- C15: for every tm with Second in 0..59, if both bus transactions of `write`
succeed then `write` returns true, `exists` is true, register 0x00 of the
byte-storing chip ends with bit 7 clear, and the `isRunning` that follows at once
(its two transactions succeeding) returns 1. -/
theorem write_restarts_clock (tm : tmElements_t) (pad : Nat) (w : World) (r1 r2 : Reply)
    (rest : List Reply) (h : tm.Second ≤ 59) (h1 : r1.failed = false)
    (h2 : r2.failed = false) :
    (write tm pad (w.withScript (r1 :: r2 :: Reply.ok :: Reply.ok :: rest))).1 = true ∧
    (write tm pad
      (w.withScript (r1 :: r2 :: Reply.ok :: Reply.ok :: rest))).2.2.exists_ = true ∧
    ((write tm pad
      (w.withScript (r1 :: r2 :: Reply.ok :: Reply.ok :: rest))).2.2.chip.regs 0).testBit 7
        = false ∧
    (isRunning (write tm pad
      (w.withScript (r1 :: r2 :: Reply.ok :: Reply.ok :: rest))).2.2).1 = 1 := by
  obtain ⟨b1, b2, b3, b4, b5⟩ := second_run_bit tm.Second h
  cases r1 <;> simp [Reply.failed] at h1 <;> cases r2 <;> simp [Reply.failed] at h2 <;>
    simp [write, isRunning, World.withScript, I2c.write, I2c.writeBlock, I2c.writeData,
      I2c.read, I2c.receive, I2c.issue, Reply.failed, Reply.status, Chip.seek, Chip.put,
      Chip.putAll, Chip.fetch, Chip.skip, tmBytes, b1, b2, b3, b4, b5]

/-- Witness of C15 at 2000-01-01 00:16:00. -/
theorem write_restarts_clock_witness :
    (write tmSample 0
      (worldBlank.withScript [Reply.ok, Reply.ok, Reply.ok, Reply.ok])).1 = true ∧
    (isRunning (write tmSample 0
      (worldBlank.withScript [Reply.ok, Reply.ok, Reply.ok, Reply.ok])).2.2).1 = 1 :=
  let h := write_restarts_clock tmSample 0 worldBlank Reply.ok Reply.ok [] (by decide) rfl rfl
  ⟨h.1, h.2.2.2⟩

/-! ## Short reads and a halted clock leave the presence flag set -/

theorem Chip.fetch_length (n : Nat) : ∀ c : Chip, (c.fetch n).length = n := by
  induction n with
  | zero => intro c; rfl
  | succ k ih => intro c; simp [Chip.fetch, ih]

theorem I2c.receive_log (w : World) : (I2c.receive w).2.log = w.log := by
  unfold I2c.receive
  cases w.rx <;> rfl

theorem I2c.receive_exists (w : World) : (I2c.receive w).2.exists_ = w.exists_ := by
  unfold I2c.receive
  cases w.rx <;> rfl

theorem read_short (tm : tmElements_t) (w : World) (r1 : Reply) (n : Nat)
    (rest : List Reply) (h1 : r1.failed = false) (hn : n < 7) :
    read tm (w.withScript (r1 :: Reply.short n :: rest)) =
      (false, tm,
        { exists_ := true, chip := { regs := w.chip.regs, ptr := n % 64 },
          rx := ({ regs := w.chip.regs, ptr := 0 } : Chip).fetch n, script := rest,
          log := w.log ++ [Txn.writePtr 0x68 0] ++ [Txn.readReq 0x68 7] }) := by
  have hmin : min n 7 = n := by omega
  cases r1 <;> simp [Reply.failed] at h1 <;>
    simp [read, World.withScript, I2c.write, I2c.issue, Reply.failed, I2c.read, I2c.available,
      Chip.seek, Chip.skip, tmNbrFields, DS1307_CTRL_ID, Chip.fetch_length, hmin, hn]

theorem read_nofail_ok (tm : tmElements_t) (w : World) (r1 : Reply) (rest : List Reply)
    (h1 : r1.failed = false) :
    read tm (w.withScript (r1 :: Reply.ok :: rest))
      = read tm (w.withScript (Reply.ok :: Reply.ok :: rest)) := by
  cases r1 <;> simp [Reply.failed] at h1 <;>
    simp [read, World.withScript, I2c.write, I2c.issue, Reply.failed]

/-- C16: when the register-pointer write of `read` succeeds and `read` then fails
because fewer than 7 bytes are available, or because bit 7 of the seconds byte is
set, `read` returns false and `exists` is true afterwards, whatever it was before. -/
theorem read_short_or_halted (tm : tmElements_t) (w : World) (r1 : Reply)
    (rest : List Reply) (h1 : r1.failed = false) :
    (∀ n, n < 7 →
      (read tm (w.withScript (r1 :: Reply.short n :: rest))).1 = false ∧
      (read tm (w.withScript (r1 :: Reply.short n :: rest))).2.2.exists_ = true) ∧
    ((w.chip.regs 0 % 256).testBit 7 = true →
      (read tm (w.withScript (r1 :: Reply.ok :: rest))).1 = false ∧
      (read tm (w.withScript (r1 :: Reply.ok :: rest))).2.2.exists_ = true) := by
  constructor
  · intro n hn
    rw [read_short tm w r1 n rest h1 hn]
    exact ⟨rfl, rfl⟩
  · intro hb
    rw [read_nofail_ok tm w r1 rest h1, read_ok_ok]
    simp [hb]

/-- Witness of C16: a read that delivers 3 bytes, and the halted chip, both from a
state where `exists` was false. -/
theorem read_short_or_halted_witness :
    ((read tmPrior (worldHalted.withScript [Reply.ok, Reply.short 3])).1 = false ∧
      (read tmPrior (worldHalted.withScript [Reply.ok, Reply.short 3])).2.2.exists_ = true) ∧
    ((read tmPrior (worldHalted.withScript [Reply.ok, Reply.ok])).1 = false ∧
      (read tmPrior (worldHalted.withScript [Reply.ok, Reply.ok])).2.2.exists_ = true) :=
  ⟨(read_short_or_halted tmPrior worldHalted Reply.ok [] rfl).1 3 (by decide),
    (read_short_or_halted tmPrior worldHalted Reply.ok [] rfl).2 (by decide)⟩

/-! ## The failure exits of `read` -/

theorem read_fail_first (tm : tmElements_t) (w : World) (r1 : Reply) (rest : List Reply)
    (h1 : r1.failed = true) :
    read tm (w.withScript (r1 :: rest)) =
      (false, tm,
        { exists_ := false, chip := w.chip, rx := w.rx, script := rest,
          log := w.log ++ [Txn.writePtr 0x68 0] }) := by
  cases r1 <;> simp [Reply.failed] at h1
  simp [read, World.withScript, I2c.write, I2c.issue, Reply.failed, Reply.status,
    DS1307_CTRL_ID]

theorem read_fail_second (tm : tmElements_t) (w : World) (r1 r2 : Reply) (rest : List Reply)
    (h1 : r1.failed = false) (h2 : r2.failed = true) :
    read tm (w.withScript (r1 :: r2 :: rest)) =
      (false, tm,
        { exists_ := true, chip := { regs := w.chip.regs, ptr := 0 }, rx := [], script := rest,
          log := w.log ++ [Txn.writePtr 0x68 0] ++ [Txn.readReq 0x68 7] }) := by
  cases r2 <;> simp [Reply.failed] at h2
  cases r1 <;> simp [Reply.failed] at h1 <;>
    simp [read, World.withScript, I2c.write, I2c.issue, I2c.read, Reply.failed, Reply.status,
      Chip.seek, DS1307_CTRL_ID, tmNbrFields]

/-! ## Reading the time as a number -/

/-- C17: `get` returns 0 whenever the underlying `read` fails, for any of the
reasons it can fail (the pointer write fails, the read request fails, fewer than 7
bytes arrive, the clock is halted), and otherwise returns `makeTime` applied to
exactly the fields `read` decoded. -/
theorem get_zero_or_makeTime (makeTime : tmElements_t → Nat) (tm0 : tmElements_t)
    (w : World) (r1 r2 : Reply) (rest : List Reply) :
    ((read tm0 (w.withScript (r1 :: r2 :: rest))).1 = false →
      (get makeTime tm0 (w.withScript (r1 :: r2 :: rest))).1 = 0) ∧
    ((read tm0 (w.withScript (r1 :: r2 :: rest))).1 = true →
      (get makeTime tm0 (w.withScript (r1 :: r2 :: rest))).1
        = makeTime (read tm0 (w.withScript (r1 :: r2 :: rest))).2.1) ∧
    (r1.failed = true → (get makeTime tm0 (w.withScript (r1 :: r2 :: rest))).1 = 0) ∧
    (r1.failed = false → r2.failed = true →
      (get makeTime tm0 (w.withScript (r1 :: r2 :: rest))).1 = 0) ∧
    (r1.failed = false → (∃ n, n < 7 ∧ r2 = Reply.short n) →
      (get makeTime tm0 (w.withScript (r1 :: r2 :: rest))).1 = 0) ∧
    (r1.failed = false → r2 = Reply.ok → (w.chip.regs 0 % 256).testBit 7 = true →
      (get makeTime tm0 (w.withScript (r1 :: r2 :: rest))).1 = 0) ∧
    (r1.failed = false → r2 = Reply.ok → (w.chip.regs 0 % 256).testBit 7 = false →
      (get makeTime tm0 (w.withScript (r1 :: r2 :: rest))).1
        = makeTime (decodeRegs w.chip.regs)) := by
  refine ⟨?_, ?_, ?_, ?_, ?_, ?_, ?_⟩
  · intro h
    simp [get, h]
  · intro h
    simp [get, h]
  · intro h1
    simp [get, read_fail_first tm0 w r1 (r2 :: rest) h1]
  · intro h1 h2
    simp [get, read_fail_second tm0 w r1 r2 rest h1 h2]
  · rintro h1 ⟨n, hn, rfl⟩
    simp [get, read_short tm0 w r1 n rest h1 hn]
  · rintro h1 rfl hb
    simp [get, read_nofail_ok tm0 w r1 rest h1, read_ok_ok, hb]
  · rintro h1 rfl hb
    simp [get, read_nofail_ok tm0 w r1 rest h1, read_ok_ok, hb]

/-- Witness of C17: on the halted chip `get` gives 0; on a running chip it gives
`makeTime` of the decoded fields (here `makeTime` picks the minute, 59). -/
theorem get_zero_or_makeTime_witness :
    (get (fun tm => tm.Minute) tmPrior (worldHalted.withScript [Reply.ok, Reply.ok])).1 = 0 ∧
    (get (fun tm => tm.Minute) tmPrior
      (worldHourBit7.withScript [Reply.ok, Reply.ok])).1 = 59 :=
  ⟨(get_zero_or_makeTime (fun tm => tm.Minute) tmPrior worldHalted Reply.ok Reply.ok
      []).2.2.2.2.2.1 rfl rfl (by decide),
    ((get_zero_or_makeTime (fun tm => tm.Minute) tmPrior worldHourBit7 Reply.ok Reply.ok
      []).2.2.2.2.2.2 rfl rfl (by decide)).trans (by decide)⟩

/-! ## No retry -/

theorem read_log (tm : tmElements_t) (w : World) (r1 r2 : Reply) (rest : List Reply) :
    (read tm (w.withScript (r1 :: r2 :: rest))).2.2.log =
      w.log ++ (if r1.failed then [Txn.writePtr 0x68 0]
        else [Txn.writePtr 0x68 0, Txn.readReq 0x68 7]) := by
  unfold read
  cases r1 <;> cases r2 <;>
    simp [World.withScript, I2c.write, I2c.issue, I2c.read, Reply.failed, Reply.status,
      DS1307_CTRL_ID, tmNbrFields] <;>
    split_ifs <;> simp [I2c.receive_log]

theorem isRunning_log (w : World) (r1 r2 : Reply) (rest : List Reply) :
    (isRunning (w.withScript (r1 :: r2 :: rest))).2.log =
      w.log ++ (if r1.failed then [Txn.writePtr 0x68 0]
        else [Txn.writePtr 0x68 0, Txn.readReq 0x68 1]) := by
  unfold isRunning
  cases r1 <;> cases r2 <;>
    simp [World.withScript, I2c.write, I2c.issue, I2c.read, Reply.failed, Reply.status,
      DS1307_CTRL_ID, I2c.receive_log]

theorem getCalibration_log (w : World) (r1 r2 : Reply) (rest : List Reply) :
    (getCalibration (w.withScript (r1 :: r2 :: rest))).2.log =
      w.log ++ (if r1.failed then [Txn.writePtr 0x68 7]
        else [Txn.writePtr 0x68 7, Txn.readReq 0x68 1]) := by
  unfold getCalibration
  cases r1 <;> cases r2 <;>
    simp [World.withScript, I2c.write, I2c.issue, I2c.read, Reply.failed, Reply.status,
      DS1307_CTRL_ID, I2c.receive_log]

theorem write_log (tm : tmElements_t) (pad : Nat) (w : World) (r1 r2 : Reply)
    (rest : List Reply) :
    (write tm pad (w.withScript (r1 :: r2 :: rest))).2.2.log =
      w.log ++ (if r1.failed then
          [Txn.writeBlock 0x68 0
            [(tm.Second ||| 0x80) % 256, tm.Minute % 256, tm.Hour % 256, tm.Wday % 256,
              tm.Day % 256, tm.Month % 256, tm.Year % 256, pad % 256]]
        else
          [Txn.writeBlock 0x68 0
            [(tm.Second ||| 0x80) % 256, tm.Minute % 256, tm.Hour % 256, tm.Wday % 256,
              tm.Day % 256, tm.Month % 256, tm.Year % 256, pad % 256],
            Txn.writeData 0x68 0 (((tm.Second ||| 0x80) % 256 &&& 0x7f) % 256)]) := by
  unfold write
  cases r1 <;> cases r2 <;>
    simp [World.withScript, I2c.writeBlock, I2c.writeData, I2c.issue, Reply.failed,
      Reply.status, DS1307_CTRL_ID, tmBytes]

theorem write_result (tm : tmElements_t) (pad : Nat) (w : World) (r1 r2 : Reply)
    (rest : List Reply) :
    (write tm pad (w.withScript (r1 :: r2 :: rest))).1 = (!r1.failed && !r2.failed) := by
  unfold write
  cases r1 <;> cases r2 <;>
    simp [World.withScript, I2c.writeBlock, I2c.writeData, I2c.issue, Reply.failed,
      Reply.status]

/-- C18: no retry and immediate abort. For every driver operation and all replies
r1, r2 of the transport, the bus transactions the operation issues are exactly its
first one when that fails, and otherwise its first and its second, each once and
in this order (`setCalibration` has one transaction only); and when one of them
fails the operation returns its failure result: false for `read` and `write`, 2 for
`isRunning`, 64 for `getCalibration`. -/
theorem no_retry (tm : tmElements_t) (pad : Nat) (v : Int) (w : World) (r1 r2 : Reply)
    (rest : List Reply) :
    ((read tm (w.withScript (r1 :: r2 :: rest))).2.2.log =
        w.log ++ (if r1.failed then [Txn.writePtr 0x68 0]
          else [Txn.writePtr 0x68 0, Txn.readReq 0x68 7]) ∧
      (r1.failed = true ∨ r2.failed = true →
        (read tm (w.withScript (r1 :: r2 :: rest))).1 = false)) ∧
    ((write tm pad (w.withScript (r1 :: r2 :: rest))).2.2.log =
        w.log ++ (if r1.failed then
            [Txn.writeBlock 0x68 0
              [(tm.Second ||| 0x80) % 256, tm.Minute % 256, tm.Hour % 256, tm.Wday % 256,
                tm.Day % 256, tm.Month % 256, tm.Year % 256, pad % 256]]
          else
            [Txn.writeBlock 0x68 0
              [(tm.Second ||| 0x80) % 256, tm.Minute % 256, tm.Hour % 256, tm.Wday % 256,
                tm.Day % 256, tm.Month % 256, tm.Year % 256, pad % 256],
              Txn.writeData 0x68 0 (((tm.Second ||| 0x80) % 256 &&& 0x7f) % 256)]) ∧
      (r1.failed = true ∨ r2.failed = true →
        (write tm pad (w.withScript (r1 :: r2 :: rest))).1 = false)) ∧
    ((isRunning (w.withScript (r1 :: r2 :: rest))).2.log =
        w.log ++ (if r1.failed then [Txn.writePtr 0x68 0]
          else [Txn.writePtr 0x68 0, Txn.readReq 0x68 1]) ∧
      (r1.failed = true ∨ r2.failed = true →
        (isRunning (w.withScript (r1 :: r2 :: rest))).1 = 2)) ∧
    ((getCalibration (w.withScript (r1 :: r2 :: rest))).2.log =
        w.log ++ (if r1.failed then [Txn.writePtr 0x68 7]
          else [Txn.writePtr 0x68 7, Txn.readReq 0x68 1]) ∧
      (r1.failed = true ∨ r2.failed = true →
        (getCalibration (w.withScript (r1 :: r2 :: rest))).1 = 64)) ∧
    (∃ b : Nat, (setCalibration v (w.withScript (r1 :: r2 :: rest))).log
        = w.log ++ [Txn.writeData 0x68 0x07 b]) := by
  refine ⟨⟨read_log tm w r1 r2 rest, ?_⟩, ⟨write_log tm pad w r1 r2 rest, ?_⟩,
    ⟨isRunning_log w r1 r2 rest, ?_⟩, ⟨getCalibration_log w r1 r2 rest, ?_⟩, ?_⟩
  · intro h
    cases hf : r1.failed
    · have h2 : r2.failed = true := by simpa [hf] using h
      rw [read_fail_second tm w r1 r2 rest hf h2]
    · rw [read_fail_first tm w r1 (r2 :: rest) hf]
  · intro h
    rw [write_result]
    rcases h with h | h <;> simp [h]
  · intro h
    cases r1 <;> cases r2 <;> simp [Reply.failed] at h <;>
      simp [isRunning, World.withScript, I2c.write, I2c.issue, I2c.read, Reply.failed,
        Reply.status]
  · intro h
    cases r1 <;> cases r2 <;> simp [Reply.failed] at h <;>
      simp [getCalibration, World.withScript, I2c.write, I2c.issue, I2c.read, Reply.failed,
        Reply.status]
  · refine ⟨(if v ≥ 0 then (v.natAbs &&& 0x1f) % 256 ||| 0x20
      else (v.natAbs &&& 0x1f) % 256) % 256, ?_⟩
    cases r1 <;>
      simp [setCalibration, World.withScript, I2c.writeData, I2c.issue, Reply.failed,
        Reply.status, DS1307_CTRL_ID]

/-- Witness of C18: with the pointer write failing, `read` returns false having
issued that one transaction; with the read request of `isRunning` failing, the
result is 2 after two transactions. -/
theorem no_retry_witness :
    (read tmPrior (worldBlank.withScript [Reply.err 0, Reply.ok])).2.2.log
      = [Txn.writePtr 0x68 0] ∧
    (read tmPrior (worldBlank.withScript [Reply.err 0, Reply.ok])).1 = false ∧
    (isRunning (worldBlank.withScript [Reply.ok, Reply.err 0])).2.log
      = [Txn.writePtr 0x68 0, Txn.readReq 0x68 1] ∧
    (isRunning (worldBlank.withScript [Reply.ok, Reply.err 0])).1 = 2 :=
  ⟨(no_retry tmPrior 0 0 worldBlank (Reply.err 0) Reply.ok []).1.1,
    (no_retry tmPrior 0 0 worldBlank (Reply.err 0) Reply.ok []).1.2 (Or.inl rfl),
    (no_retry tmPrior 0 0 worldBlank Reply.ok (Reply.err 0) []).2.2.1.1,
    (no_retry tmPrior 0 0 worldBlank Reply.ok (Reply.err 0) []).2.2.1.2 (Or.inr rfl)⟩

end DS1307RTC
